import Mathlib

/-!
Shallow embedding of the news-analyzer orchestration service (app/main.py).

The repository exposes a single request handler, `process_article`, which
resolves raw text (inline text or a scraped URL), normalizes whitespace,
branches on a 200-character threshold between a short-text fallback response
and a full analysis pipeline (sentiment, bias, topics run concurrently and
joined, then a related-article fetch trimmed to 7 entries).

External collaborators (the newspaper scraper, the three analyzers and the
related-article fetcher) are modelled as an environment of functions that
either return a value or fail with a message (`Except String`); a Python
exception raised by a collaborator corresponds to `Except.error`.  The
handler returns `Except String Resp`: `Except.ok` is a value actually
returned by the handler body (including its `error:`-shaped dictionaries),
while `Except.error` is an exception propagating uncaught out of the handler.
Each external invocation is also recorded in an event trace so that claims
about which collaborators are called, how often and with what argument can
be stated.
-/

deriving instance DecidableEq for Except

namespace NewsAnalyzer

/-- Python `str.strip()` on the list of characters: drop whitespace from
both ends. -/
def pyStripL (l : List Char) : List Char :=
  ((l.dropWhile Char.isWhitespace).reverse.dropWhile Char.isWhitespace).reverse

/-- Python `str.strip()`. -/
def pyStrip (s : String) : String :=
  String.mk (pyStripL s.data)

/-- Python `str.split()` with no argument (split on whitespace runs,
discarding empty tokens): accumulator-based worker.  `acc` holds the current
word reversed. -/
def pyWordsAux : List Char → List Char → List (List Char)
  | acc, [] => if acc.isEmpty then [] else [acc.reverse]
  | acc, c :: cs =>
    if c.isWhitespace then
      if acc.isEmpty then pyWordsAux [] cs
      else acc.reverse :: pyWordsAux [] cs
    else pyWordsAux (c :: acc) cs

/-- Python `s.split()`: the list of maximal whitespace-free words of `s`. -/
def pyWords (l : List Char) : List (List Char) :=
  pyWordsAux [] l

/-- Python `" ".join(ws)`. -/
def joinWords : List (List Char) → List Char
  | [] => []
  | [w] => w
  | w :: w2 :: ws => w ++ ' ' :: joinWords (w2 :: ws)

/-- `_normalize_text(s)` from app/main.py: `" ".join((s or "").split())`.
`none` models Python `None`. -/
def _normalize_text (s : Option String) : String :=
  String.mk (joinWords (pyWords (s.getD "").data))

/-- The request body: `ArticleRequest(text: str | None, url: str | None)`. -/
structure ArticleRequest where
  text : Option String
  url : Option String
deriving DecidableEq, Repr

/-- One recorded invocation of an external collaborator. -/
inductive CallEvent where
  | scrape (url : String)
  | sentiment (text : String)
  | bias (text : String)
  | topics (text : String)
  | fetch (keywords : List String)
deriving DecidableEq, Repr

/-- The external collaborators of the orchestrator.  `scrape_raw url` models
`Article(url); download(); parse(); art.text` (the article body may be
`None`, hence `Option String`); the other four model the imported analyzer
and fetcher functions.  `Except.error e` models the collaborator raising an
exception whose message is `e`. -/
structure Env where
  scrape_raw : String → Except String (Option String)
  analyze_sentiment : String → Except String String
  classify_political_bias : String → Except String String
  extract_topics : String → Except String (List String)
  fetch_articles : List String → Except String (List String)

/-- `_scrape_with_newspaper(url)` from app/main.py: scrape, then
`return (art.text or "").strip()`. -/
def _scrape_with_newspaper (env : Env) (url : String) : Except String String :=
  match env.scrape_raw url with
  | Except.error e => Except.error e
  | Except.ok t => Except.ok (pyStrip (t.getD ""))

/-- A response value actually returned by the handler: either the success
dictionary (with its optional `note` field) or an error dictionary
`\x7b"error": msg\x7d`. -/
inductive Resp where
  | success (keywords : List String) (sentiment : String) (bias : String)
      (related_articles : List String) (note : Option String)
  | error (msg : String)
deriving DecidableEq, Repr

/-- The literal note string of the short-text fallback response. -/
def shortNote : String :=
  "Input is quite short; topic extraction is less reliable on short texts."

/-- Truthiness of `req.text and req.text.strip()` in app/main.py line 41. -/
def hasText (req : ArticleRequest) : Bool :=
  match req.text with
  | none => false
  | some s => s != "" && pyStrip s != ""

/-- Truthiness of `req.url and req.url.strip()` in app/main.py line 43. -/
def hasUrl (req : ArticleRequest) : Bool :=
  match req.url with
  | none => false
  | some s => s != "" && pyStrip s != ""

/-- Lines 51-77 of app/main.py: normalize the resolved raw text, branch on
the 200-character threshold, and either build the fallback response or run
the three analyzers (all three started before the join, hence all three
events are always recorded on the full path), then the related fetch with
the `[:7]` trim.  `asyncio.gather` re-raises the first failure; the
sequential embedding determinizes "first" by argument order. -/
def runPipeline (env : Env) (raw_text : String) (tr0 : List CallEvent) :
    Except String Resp × List CallEvent :=
  let text := _normalize_text (some raw_text)
  if text.length < 200 then
    match env.analyze_sentiment text with
    | Except.error e => (Except.error e, tr0 ++ [CallEvent.sentiment text])
    | Except.ok s =>
      (Except.ok (Resp.success ["news", "world", "article"] s "center" []
        (some shortNote)), tr0 ++ [CallEvent.sentiment text])
  else
    let tr1 := tr0 ++ [CallEvent.sentiment text, CallEvent.bias text, CallEvent.topics text]
    match env.analyze_sentiment text, env.classify_political_bias text,
        env.extract_topics text with
    | Except.error e, _, _ => (Except.error e, tr1)
    | Except.ok _, Except.error e, _ => (Except.error e, tr1)
    | Except.ok _, Except.ok _, Except.error e => (Except.error e, tr1)
    | Except.ok s, Except.ok b, Except.ok kws =>
      match env.fetch_articles kws with
      | Except.error e => (Except.error e, tr1 ++ [CallEvent.fetch kws])
      | Except.ok related =>
        (Except.ok (Resp.success kws s b (related.take 7) none),
          tr1 ++ [CallEvent.fetch kws])

/-- `process_article` from app/main.py: pick the source (text takes
precedence over url; scrape failure returns the extraction-error
dictionary; neither present returns the invalid-request dictionary), then
run the normalize-branch-analyze pipeline.  The second component is the
trace of external invocations made while handling the request. -/
def process_article (env : Env) (req : ArticleRequest) :
    Except String Resp × List CallEvent :=
  if hasText req then
    runPipeline env (pyStrip (req.text.getD "")) []
  else if hasUrl req then
    let url := pyStrip (req.url.getD "")
    match _scrape_with_newspaper env url with
    | Except.error e =>
      (Except.ok (Resp.error ("Failed to extract article from URL: " ++ e)),
        [CallEvent.scrape url])
    | Except.ok raw => runPipeline env raw [CallEvent.scrape url]
  else
    (Except.ok (Resp.error "Please provide either text or a valid URL."), [])

/-- The raw text a request resolves to, if resolution succeeds: the stripped
inline text, or the stripped scrape result. -/
def resolveRaw (env : Env) (req : ArticleRequest) : Option String :=
  if hasText req then some (pyStrip (req.text.getD ""))
  else if hasUrl req then
    match _scrape_with_newspaper env (pyStrip (req.url.getD "")) with
    | Except.error _ => none
    | Except.ok raw => some raw
  else none

/-- Recognizer for fetch events. -/
def isFetchEv : CallEvent → Bool
  | CallEvent.fetch _ => true
  | _ => false

/-- Recognizer for scrape events. -/
def isScrapeEv : CallEvent → Bool
  | CallEvent.scrape _ => true
  | _ => false

/-- Recognizer for analyzer (sentiment, bias, topics) events. -/
def isAnalysisEv : CallEvent → Bool
  | CallEvent.sentiment _ => true
  | CallEvent.bias _ => true
  | CallEvent.topics _ => true
  | _ => false

/-- Shape check for normalized text: no leading whitespace, and every
whitespace character is a single space immediately followed by a
non-whitespace character (hence no trailing whitespace and no run of two). -/
def tailCollapsed : List Char → Bool
  | [] => true
  | c :: cs =>
    if c.isWhitespace then
      (c == ' ') &&
        (match cs with
          | [] => false
          | d :: _ => !d.isWhitespace) &&
        tailCollapsed cs
    else tailCollapsed cs

/-- First character, when present, is not whitespace. -/
def noLeadWs : List Char → Bool
  | [] => true
  | c :: _ => !c.isWhitespace

/-- A string is in fully-normalized shape: stripped at both ends and all
whitespace runs collapsed to one plain space. -/
def isNormalizedB (l : List Char) : Bool :=
  noLeadWs l && tailCollapsed l

/-- Recognizer for the handler returning an error-message dictionary. -/
def isErrorResp : Except String Resp → Bool
  | Except.ok (Resp.error _) => true
  | _ => false

/-- Recognizer for a collaborator call (or the whole handler) raising. -/
def isExcErr {α : Type} : Except String α → Bool
  | Except.error _ => true
  | _ => false

/-- A 200-character article body (exactly at the full-pipeline threshold). -/
def longText : String :=
  String.mk (List.replicate 200 'a')

/-- A concrete environment in which every collaborator succeeds; the fetcher
returns nine candidate articles. -/
def envOk : Env where
  scrape_raw := fun _ => Except.ok (some "  \t ")
  analyze_sentiment := fun t => Except.ok (String.append "S:" t)
  classify_political_bias := fun _ => Except.ok "left"
  extract_topics := fun _ => Except.ok ["k1", "k2"]
  fetch_articles := fun _ => Except.ok ["a1", "a2", "a3", "a4", "a5", "a6", "a7", "a8", "a9"]

/-- A concrete environment in which topic extraction raises. -/
def envTopicFail : Env where
  scrape_raw := fun _ => Except.ok (some "")
  analyze_sentiment := fun t => Except.ok (String.append "S:" t)
  classify_political_bias := fun _ => Except.ok "center"
  extract_topics := fun _ => Except.error "topic model crashed"
  fetch_articles := fun _ => Except.ok []

/-- A concrete environment in which scraping raises. -/
def envScrapeFail : Env where
  scrape_raw := fun _ => Except.error "dead link"
  analyze_sentiment := fun t => Except.ok (String.append "S:" t)
  classify_political_bias := fun _ => Except.ok "left"
  extract_topics := fun _ => Except.ok ["k1"]
  fetch_articles := fun _ => Except.ok []

/-- A request with short inline text and a URL that should be ignored. -/
def reqShort : ArticleRequest :=
  ⟨some "hello world", some "http://ignored"⟩

/-- A request with 200 characters of inline text. -/
def reqLong : ArticleRequest :=
  ⟨some longText, none⟩

/-- A request with only a URL (whitespace-padded). -/
def reqUrlOnly : ArticleRequest :=
  ⟨none, some " http://x "⟩

/-- A request whose text is blank and whose url is empty. -/
def reqBlank : ArticleRequest :=
  ⟨some "   ", some ""⟩

end NewsAnalyzer

namespace NewsAnalyzer

/-- Every word produced by the split worker is nonempty and whitespace-free,
provided the pending accumulator is whitespace-free. -/
theorem pyWordsAux_good : ∀ (l acc : List Char),
    (∀ c ∈ acc, c.isWhitespace = false) →
    ∀ w ∈ pyWordsAux acc l, w ≠ [] ∧ ∀ c ∈ w, c.isWhitespace = false := by
  intro l
  induction l with
  | nil =>
    intro acc hacc w hw
    by_cases he : acc.isEmpty = true
    · simp [pyWordsAux, he] at hw
    · simp [pyWordsAux, he] at hw
      subst hw
      refine ⟨?_, ?_⟩
      · simp only [List.isEmpty_iff] at he
        simpa using he
      · intro c hc
        exact hacc c (List.mem_reverse.mp hc)
  | cons c cs ih =>
    intro acc hacc w hw
    by_cases hcw : c.isWhitespace = true
    · by_cases he : acc.isEmpty = true
      · simp [pyWordsAux, hcw, he] at hw
        exact ih [] (by simp) w hw
      · simp [pyWordsAux, hcw, he] at hw
        rcases hw with rfl | hw
        · refine ⟨?_, ?_⟩
          · simp only [List.isEmpty_iff] at he
            simpa using he
          · intro x hx
            exact hacc x (List.mem_reverse.mp hx)
        · exact ih [] (by simp) w hw
    · simp [pyWordsAux, hcw] at hw
      refine ih (c :: acc) ?_ w hw
      intro x hx
      rcases List.mem_cons.mp hx with rfl | hx
      · simpa using hcw
      · exact hacc x hx

/-- Every word of a Python split is nonempty and whitespace-free. -/
theorem pyWords_good (l : List Char) :
    ∀ w ∈ pyWords l, w ≠ [] ∧ ∀ c ∈ w, c.isWhitespace = false :=
  pyWordsAux_good l [] (by simp)

/-- Feeding a whitespace-free word into the split worker only extends the
accumulator. -/
theorem pyWordsAux_word_append : ∀ (w : List Char),
    (∀ c ∈ w, c.isWhitespace = false) →
    ∀ (acc rest : List Char),
    pyWordsAux acc (w ++ rest) = pyWordsAux (w.reverse ++ acc) rest := by
  intro w
  induction w with
  | nil => intro _ acc rest; simp
  | cons c cs ih =>
    intro hw acc rest
    have hc : c.isWhitespace = false := hw c (by simp)
    have hcs : ∀ x ∈ cs, x.isWhitespace = false := fun x hx => hw x (by simp [hx])
    simp only [List.cons_append, pyWordsAux, hc]
    rw [if_neg (by simp [hc])]
    show pyWordsAux (c :: acc) (cs ++ rest) = pyWordsAux ((c :: cs).reverse ++ acc) rest
    rw [ih hcs (c :: acc) rest]
    simp

end NewsAnalyzer

namespace NewsAnalyzer

/-- Splitting the space-join of nonempty whitespace-free words recovers
exactly those words. -/
theorem pyWords_joinWords : ∀ (ws : List (List Char)),
    (∀ w ∈ ws, w ≠ [] ∧ ∀ c ∈ w, c.isWhitespace = false) →
    pyWords (joinWords ws) = ws := by
  intro ws
  induction ws with
  | nil => intro _; rfl
  | cons w ws ih =>
    intro h
    obtain ⟨hw, hwc⟩ := h w (by simp)
    have hrest : ∀ v ∈ ws, v ≠ [] ∧ ∀ c ∈ v, c.isWhitespace = false :=
      fun v hv => h v (by simp [hv])
    have hne : w.reverse.isEmpty = false := by
      cases w with
      | nil => exact absurd rfl hw
      | cons a as => simp
    cases ws with
    | nil =>
      show pyWords (joinWords [w]) = [w]
      rw [show joinWords [w] = w from rfl]
      unfold pyWords
      have h1 : pyWordsAux [] (w ++ []) = pyWordsAux (w.reverse ++ []) [] :=
        pyWordsAux_word_append w hwc [] []
      rw [List.append_nil, List.append_nil] at h1
      rw [h1]
      simp [pyWordsAux, hne]
    | cons w2 ws2 =>
      show pyWords (joinWords (w :: w2 :: ws2)) = w :: w2 :: ws2
      have hjw : joinWords (w :: w2 :: ws2) = w ++ ' ' :: joinWords (w2 :: ws2) := rfl
      unfold pyWords
      rw [hjw]
      have h1 := pyWordsAux_word_append w hwc [] (' ' :: joinWords (w2 :: ws2))
      rw [List.append_nil] at h1
      rw [h1]
      have hsp : (' ' : Char).isWhitespace = true := by decide
      simp only [pyWordsAux, hsp, hne, if_true, if_false, Bool.false_eq_true, if_pos, List.reverse_reverse]
      have h2 := ih hrest
      unfold pyWords at h2
      simp [h2]

/-- Splitting the normalized text gives the same words as splitting the
original. -/
theorem pyWords_normalize (s : Option String) :
    pyWords (_normalize_text s).data = pyWords (s.getD "").data := by
  show pyWords (joinWords (pyWords (s.getD "").data)) = pyWords (s.getD "").data
  exact pyWords_joinWords _ (pyWords_good _)

/-- A whitespace-free block at the front does not affect the collapse
check. -/
theorem tailCollapsed_append_noWs : ∀ (w : List Char),
    (∀ c ∈ w, c.isWhitespace = false) →
    ∀ rest : List Char, tailCollapsed (w ++ rest) = tailCollapsed rest := by
  intro w
  induction w with
  | nil => intro _ rest; rfl
  | cons c cs ih =>
    intro h rest
    have hc : c.isWhitespace = false := h c (by simp)
    show tailCollapsed (c :: (cs ++ rest)) = tailCollapsed rest
    simp only [tailCollapsed, hc, Bool.false_eq_true, if_false]
    exact ih (fun x hx => h x (by simp [hx])) rest

/-- A whitespace-free string passes the collapse check. -/
theorem tailCollapsed_of_noWs (w : List Char)
    (h : ∀ c ∈ w, c.isWhitespace = false) : tailCollapsed w = true := by
  have h1 := tailCollapsed_append_noWs w h []
  simpa using h1

/-- The join of a nonempty word list starts with that word. -/
theorem joinWords_cons (w : List Char) (ws : List (List Char)) :
    ∃ t, joinWords (w :: ws) = w ++ t := by
  cases ws with
  | nil => exact ⟨[], by simp [joinWords]⟩
  | cons w2 ws2 => exact ⟨' ' :: joinWords (w2 :: ws2), rfl⟩

/-- The space-join of nonempty whitespace-free words passes the collapse
check: every space separates two non-space characters. -/
theorem tailCollapsed_joinWords : ∀ (ws : List (List Char)),
    (∀ w ∈ ws, w ≠ [] ∧ ∀ c ∈ w, c.isWhitespace = false) →
    tailCollapsed (joinWords ws) = true := by
  intro ws
  induction ws with
  | nil => intro _; rfl
  | cons w ws ih =>
    intro h
    obtain ⟨hw, hwc⟩ := h w (by simp)
    have hrest : ∀ v ∈ ws, v ≠ [] ∧ ∀ c ∈ v, c.isWhitespace = false :=
      fun v hv => h v (by simp [hv])
    cases ws with
    | nil =>
      show tailCollapsed (joinWords [w]) = true
      rw [show joinWords [w] = w from rfl]
      exact tailCollapsed_of_noWs w hwc
    | cons w2 ws2 =>
      have hjw : joinWords (w :: w2 :: ws2) = w ++ ' ' :: joinWords (w2 :: ws2) := rfl
      rw [hjw, tailCollapsed_append_noWs w hwc]
      obtain ⟨hw2, hw2c⟩ := h w2 (by simp)
      obtain ⟨t, ht⟩ := joinWords_cons w2 ws2
      cases w2 with
      | nil => exact absurd rfl hw2
      | cons d ds =>
        rw [ht]
        have hd : d.isWhitespace = false := hw2c d (by simp)
        have htc : tailCollapsed (d :: (ds ++ t)) = true := by
          have h2 := ih hrest
          rw [ht] at h2
          exact h2
        have hsp : (' ' : Char).isWhitespace = true := by decide
        have htc2 : tailCollapsed (ds ++ t) = true := by
          simpa [tailCollapsed, hd] using htc
        show tailCollapsed (' ' :: d :: (ds ++ t)) = true
        simp [tailCollapsed, hsp, hd, htc2]

/-- The space-join of nonempty whitespace-free words has no leading
whitespace. -/
theorem noLeadWs_joinWords (ws : List (List Char))
    (h : ∀ w ∈ ws, w ≠ [] ∧ ∀ c ∈ w, c.isWhitespace = false) :
    noLeadWs (joinWords ws) = true := by
  cases ws with
  | nil => rfl
  | cons w ws2 =>
    obtain ⟨hw, hwc⟩ := h w (by simp)
    obtain ⟨t, ht⟩ := joinWords_cons w ws2
    cases w with
    | nil => exact absurd rfl hw
    | cons d ds =>
      rw [ht]
      show noLeadWs (d :: (ds ++ t)) = true
      simp [noLeadWs, hwc d (by simp)]

/-- Normalized text is in fully-normalized shape. -/
theorem isNormalizedB_normalize (s : Option String) :
    isNormalizedB (_normalize_text s).data = true := by
  show isNormalizedB (joinWords (pyWords (s.getD "").data)) = true
  unfold isNormalizedB
  rw [noLeadWs_joinWords _ (pyWords_good _), tailCollapsed_joinWords _ (pyWords_good _)]
  rfl

end NewsAnalyzer

namespace NewsAnalyzer

/-- Short-text branch of the pipeline, when sentiment succeeds. -/
theorem runPipeline_short (env : Env) (raw : String) (tr0 : List CallEvent) (s : String)
    (hlen : (_normalize_text (some raw)).length < 200)
    (hs : env.analyze_sentiment (_normalize_text (some raw)) = Except.ok s) :
    runPipeline env raw tr0 =
      (Except.ok (Resp.success ["news", "world", "article"] s "center" [] (some shortNote)),
        tr0 ++ [CallEvent.sentiment (_normalize_text (some raw))]) := by
  simp only [runPipeline]
  rw [if_pos hlen, hs]

/-- Full-pipeline branch, when every collaborator succeeds. -/
theorem runPipeline_full (env : Env) (raw : String) (tr0 : List CallEvent)
    (s b : String) (kws rel : List String)
    (hlen : 200 ≤ (_normalize_text (some raw)).length)
    (hs : env.analyze_sentiment (_normalize_text (some raw)) = Except.ok s)
    (hb : env.classify_political_bias (_normalize_text (some raw)) = Except.ok b)
    (hk : env.extract_topics (_normalize_text (some raw)) = Except.ok kws)
    (hf : env.fetch_articles kws = Except.ok rel) :
    runPipeline env raw tr0 =
      (Except.ok (Resp.success kws s b (rel.take 7) none),
        tr0 ++ [CallEvent.sentiment (_normalize_text (some raw)),
          CallEvent.bias (_normalize_text (some raw)),
          CallEvent.topics (_normalize_text (some raw)),
          CallEvent.fetch kws]) := by
  simp only [runPipeline]
  rw [if_neg (by omega), hs, hb, hk]
  simp [hf]

/-- Full-pipeline branch, when one of the three analyzers fails: the result
is a propagating exception and the trace records exactly the three analyzer
starts (in particular, no fetch). -/
theorem runPipeline_fail (env : Env) (raw : String) (tr0 : List CallEvent)
    (hlen : 200 ≤ (_normalize_text (some raw)).length)
    (hfail : (∃ e, env.analyze_sentiment (_normalize_text (some raw)) = Except.error e) ∨
      (∃ e, env.classify_political_bias (_normalize_text (some raw)) = Except.error e) ∨
      (∃ e, env.extract_topics (_normalize_text (some raw)) = Except.error e)) :
    (∃ e, (runPipeline env raw tr0).fst = Except.error e) ∧
      (runPipeline env raw tr0).snd =
        tr0 ++ [CallEvent.sentiment (_normalize_text (some raw)),
          CallEvent.bias (_normalize_text (some raw)),
          CallEvent.topics (_normalize_text (some raw))] := by
  simp only [runPipeline]
  rw [if_neg (by omega)]
  cases hs : env.analyze_sentiment (_normalize_text (some raw)) with
  | error e => exact ⟨⟨e, rfl⟩, rfl⟩
  | ok s =>
    cases hb : env.classify_political_bias (_normalize_text (some raw)) with
    | error e => exact ⟨⟨e, rfl⟩, rfl⟩
    | ok b =>
      cases hk : env.extract_topics (_normalize_text (some raw)) with
      | error e => exact ⟨⟨e, rfl⟩, rfl⟩
      | ok kws =>
        exfalso
        rcases hfail with ⟨e, he⟩ | ⟨e, he⟩ | ⟨e, he⟩
        · rw [hs] at he; exact Except.noConfusion he
        · rw [hb] at he; exact Except.noConfusion he
        · rw [hk] at he; exact Except.noConfusion he

/-- A request that resolves to raw text runs the pipeline on it, starting
from an empty trace or from a single scrape event. -/
theorem process_resolved (env : Env) (req : ArticleRequest) (raw : String)
    (h : resolveRaw env req = some raw) :
    process_article env req = runPipeline env raw [] ∨
      ∃ url, process_article env req = runPipeline env raw [CallEvent.scrape url] := by
  by_cases ht : hasText req = true
  · left
    unfold resolveRaw at h
    rw [if_pos ht] at h
    simp only [process_article]
    rw [if_pos ht]
    obtain rfl : pyStrip (req.text.getD "") = raw := by injection h
    rfl
  · unfold resolveRaw at h
    rw [if_neg ht] at h
    simp only [process_article]
    rw [if_neg ht]
    by_cases hu : hasUrl req = true
    · rw [if_pos hu] at h ⊢
      right
      refine ⟨pyStrip (req.url.getD ""), ?_⟩
      cases hs : _scrape_with_newspaper env (pyStrip (req.url.getD "")) with
      | error e => rw [hs] at h; exact absurd h (by simp)
      | ok raw2 =>
        rw [hs] at h
        obtain rfl : raw2 = raw := by injection h
        rfl
    · rw [if_neg hu] at h
      exact absurd h (by simp)

end NewsAnalyzer

namespace NewsAnalyzer

/-- Any success response the pipeline produces carries at most 7 related
articles: the fallback list is empty and the full path takes 7. -/
theorem runPipeline_related_le (env : Env) (raw : String) (tr0 : List CallEvent)
    (kws : List String) (s b : String) (rel : List String) (no : Option String)
    (h : (runPipeline env raw tr0).fst = Except.ok (Resp.success kws s b rel no)) :
    rel.length ≤ 7 := by
  simp only [runPipeline] at h
  by_cases hlen : (_normalize_text (some raw)).length < 200
  · rw [if_pos hlen] at h
    cases hs : env.analyze_sentiment (_normalize_text (some raw)) with
    | error e => rw [hs] at h; simp at h
    | ok s2 =>
      rw [hs] at h
      dsimp only at h
      injection h with h2
      injection h2 with h2a h2b h2c h2d h2e
      rw [← h2d]
      simp
  · rw [if_neg hlen] at h
    cases hs : env.analyze_sentiment (_normalize_text (some raw)) with
    | error e => rw [hs] at h; simp at h
    | ok s2 =>
      rw [hs] at h
      cases hb : env.classify_political_bias (_normalize_text (some raw)) with
      | error e => rw [hb] at h; simp at h
      | ok b2 =>
        rw [hb] at h
        cases hk : env.extract_topics (_normalize_text (some raw)) with
        | error e => rw [hk] at h; simp at h
        | ok kws2 =>
          rw [hk] at h
          dsimp only at h
          cases hf : env.fetch_articles kws2 with
          | error e => rw [hf] at h; simp at h
          | ok related =>
            rw [hf] at h
            dsimp only at h
            injection h with h2
            injection h2 with h2a h2b h2c h2d h2e
            rw [← h2d, List.length_take]
            omega

/-- The pipeline itself never scrapes: its trace adds no scrape event. -/
theorem runPipeline_no_scrape (env : Env) (raw : String) (tr0 : List CallEvent) :
    (runPipeline env raw tr0).snd.countP isScrapeEv = tr0.countP isScrapeEv := by
  simp only [runPipeline]
  by_cases hlen : (_normalize_text (some raw)).length < 200
  · rw [if_pos hlen]
    cases env.analyze_sentiment (_normalize_text (some raw)) with
    | error e => simp [List.countP_append, List.countP_cons, isScrapeEv]
    | ok s => simp [List.countP_append, List.countP_cons, isScrapeEv]
  · rw [if_neg hlen]
    cases env.analyze_sentiment (_normalize_text (some raw)) with
    | error e => simp [List.countP_append, List.countP_cons, isScrapeEv]
    | ok s =>
      cases env.classify_political_bias (_normalize_text (some raw)) with
      | error e => simp [List.countP_append, List.countP_cons, isScrapeEv]
      | ok b =>
        cases env.extract_topics (_normalize_text (some raw)) with
        | error e => simp [List.countP_append, List.countP_cons, isScrapeEv]
        | ok kws =>
          dsimp only
          cases hf : env.fetch_articles kws with
          | error e =>
            simp [List.countP_append, List.countP_cons, isScrapeEv]
          | ok related =>
            simp [List.countP_append, List.countP_cons, isScrapeEv]

/-- Python-stripping an all-whitespace string gives the empty string. -/
theorem pyStrip_all_ws (s : String) (h : ∀ c ∈ s.data, c.isWhitespace = true) :
    pyStrip s = "" := by
  unfold pyStrip pyStripL
  have h1 : s.data.dropWhile Char.isWhitespace = [] :=
    List.dropWhile_eq_nil_iff.mpr h
  rw [h1]
  rfl

end NewsAnalyzer

namespace NewsAnalyzer

/-- C8: `_normalize_text` is total (a Lean function), maps `None` and the
empty string to the empty string, and its output is stripped at both ends
with every internal whitespace run collapsed to a single space while
preserving the whitespace-free words of the input. -/
theorem claim_C8 (s : Option String) :
    _normalize_text none = "" ∧
      _normalize_text (some "") = "" ∧
      isNormalizedB (_normalize_text s).data = true ∧
      pyWords (_normalize_text s).data = pyWords (s.getD "").data :=
  ⟨rfl, rfl, isNormalizedB_normalize s, pyWords_normalize s⟩

/-- C9: normalization is idempotent. -/
theorem claim_C9 (s : Option String) :
    _normalize_text (some (_normalize_text s)) = _normalize_text s := by
  have h := pyWords_joinWords (pyWords (s.getD "").data) (pyWords_good _)
  show String.mk (joinWords (pyWords (joinWords (pyWords (s.getD "").data)))) =
    String.mk (joinWords (pyWords (s.getD "").data))
  rw [h]

/-- C1: a request resolving to normalized text shorter than 200 characters
gets the short-text fallback response: keywords `["news","world","article"]`,
bias `"center"`, empty related list, the (non-empty) note, and sentiment
exactly the analyzer output on the actual normalized text. -/
theorem claim_C1 (env : Env) (req : ArticleRequest) (raw s : String)
    (hres : resolveRaw env req = some raw)
    (hlen : (_normalize_text (some raw)).length < 200)
    (hs : env.analyze_sentiment (_normalize_text (some raw)) = Except.ok s) :
    (process_article env req).fst =
      Except.ok (Resp.success ["news", "world", "article"] s "center" [] (some shortNote)) ∧
      shortNote ≠ "" := by
  refine ⟨?_, by decide⟩
  rcases process_resolved env req raw hres with hp | ⟨url, hp⟩ <;>
    rw [hp, runPipeline_short env raw _ s hlen hs]

/-- C5: when the text field is present and non-blank, the URL is ignored
(the result is the same as with no URL at all) and the scraper is never
invoked. -/
theorem claim_C5 (env : Env) (t : String) (u : Option String)
    (h : hasText ⟨some t, u⟩ = true) :
    process_article env ⟨some t, u⟩ = process_article env ⟨some t, none⟩ ∧
      (process_article env ⟨some t, u⟩).snd.countP isScrapeEv = 0 := by
  have h2 : hasText ⟨some t, none⟩ = true := h
  constructor
  · simp only [process_article]
    rw [if_pos h, if_pos h2]
  · simp only [process_article]
    rw [if_pos h, runPipeline_no_scrape]
    rfl

/-- C6: with neither usable text nor usable url, the handler immediately
returns the invalid-request error dictionary and makes no external call
(the trace is empty). -/
theorem claim_C6 (env : Env) (req : ArticleRequest)
    (h1 : hasText req = false) (h2 : hasUrl req = false) :
    process_article env req =
      (Except.ok (Resp.error "Please provide either text or a valid URL."), []) := by
  simp only [process_article]
  rw [if_neg (by simp [h1]), if_neg (by simp [h2])]

/-- C7: with blank text, a usable url and a raising scraper, the handler
returns the extraction-error dictionary carrying the cause; the trace shows
exactly one scrape (no retry) and no analyzer call. -/
theorem claim_C7 (env : Env) (req : ArticleRequest) (e : String)
    (h1 : hasText req = false) (h2 : hasUrl req = true)
    (hs : env.scrape_raw (pyStrip (req.url.getD "")) = Except.error e) :
    process_article env req =
      (Except.ok (Resp.error ("Failed to extract article from URL: " ++ e)),
        [CallEvent.scrape (pyStrip (req.url.getD ""))]) ∧
      (process_article env req).snd.countP isScrapeEv = 1 ∧
      (process_article env req).snd.countP isAnalysisEv = 0 := by
  have hsw : _scrape_with_newspaper env (pyStrip (req.url.getD "")) = Except.error e := by
    unfold _scrape_with_newspaper
    rw [hs]
  have hmain : process_article env req =
      (Except.ok (Resp.error ("Failed to extract article from URL: " ++ e)),
        [CallEvent.scrape (pyStrip (req.url.getD ""))]) := by
    simp only [process_article]
    rw [if_neg (by simp [h1]), if_pos h2, hsw]
  refine ⟨hmain, ?_, ?_⟩ <;> rw [hmain] <;>
    simp [List.countP_cons, isScrapeEv, isAnalysisEv]

end NewsAnalyzer

namespace NewsAnalyzer

/-- C2: on the full pipeline with all collaborators succeeding, each of the
three analyzers is invoked exactly once, each on the same normalized text,
and the keywords/sentiment/bias fields are exactly their outputs; the
success response carries no note. -/
theorem claim_C2 (env : Env) (req : ArticleRequest) (raw s b : String)
    (kws rel : List String)
    (hres : resolveRaw env req = some raw)
    (hlen : 200 ≤ (_normalize_text (some raw)).length)
    (hs : env.analyze_sentiment (_normalize_text (some raw)) = Except.ok s)
    (hb : env.classify_political_bias (_normalize_text (some raw)) = Except.ok b)
    (hk : env.extract_topics (_normalize_text (some raw)) = Except.ok kws)
    (hf : env.fetch_articles kws = Except.ok rel) :
    (process_article env req).fst = Except.ok (Resp.success kws s b (rel.take 7) none) ∧
      (process_article env req).snd.count
        (CallEvent.sentiment (_normalize_text (some raw))) = 1 ∧
      (process_article env req).snd.count
        (CallEvent.bias (_normalize_text (some raw))) = 1 ∧
      (process_article env req).snd.count
        (CallEvent.topics (_normalize_text (some raw))) = 1 := by
  rcases process_resolved env req raw hres with hp | ⟨url, hp⟩ <;>
    rw [hp, runPipeline_full env raw _ s b kws rel hlen hs hb hk hf] <;>
    refine ⟨rfl, ?_, ?_, ?_⟩ <;>
    simp [List.count_cons, List.count_append]

/-- C3: every success response, on either path, carries at most 7 related
articles, whatever the retrieval capability returned. -/
theorem claim_C3 (env : Env) (req : ArticleRequest) (kws : List String)
    (s b : String) (rel : List String) (no : Option String)
    (h : (process_article env req).fst = Except.ok (Resp.success kws s b rel no)) :
    rel.length ≤ 7 := by
  simp only [process_article] at h
  by_cases ht : hasText req = true
  · rw [if_pos ht] at h
    exact runPipeline_related_le _ _ _ _ _ _ _ _ h
  · rw [if_neg ht] at h
    by_cases hu : hasUrl req = true
    · rw [if_pos hu] at h
      cases hs : _scrape_with_newspaper env (pyStrip (req.url.getD "")) with
      | error e =>
        rw [hs] at h
        dsimp only at h
        injection h with h2
        exact Resp.noConfusion h2
      | ok raw =>
        rw [hs] at h
        dsimp only at h
        exact runPipeline_related_le _ _ _ _ _ _ _ _ h
    · rw [if_neg hu] at h
      dsimp only at h
      injection h with h2
      exact Resp.noConfusion h2

/-- C4 (amended): if any of the three analysis operations fails on the full
pipeline, the whole request fails all-or-nothing: the related-article fetch
is never attempted and no response (success or error dictionary) is
returned by the handler; the failing stage's exception propagates uncaught
out of `process_article`. -/
theorem claim_C4 (env : Env) (req : ArticleRequest) (raw : String)
    (hres : resolveRaw env req = some raw)
    (hlen : 200 ≤ (_normalize_text (some raw)).length)
    (hfail : (isExcErr (env.analyze_sentiment (_normalize_text (some raw))) ||
      isExcErr (env.classify_political_bias (_normalize_text (some raw))) ||
      isExcErr (env.extract_topics (_normalize_text (some raw)))) = true) :
    isExcErr (process_article env req).fst = true ∧
      (process_article env req).snd.countP isFetchEv = 0 := by
  have hfail2 : (∃ e, env.analyze_sentiment (_normalize_text (some raw)) = Except.error e) ∨
      (∃ e, env.classify_political_bias (_normalize_text (some raw)) = Except.error e) ∨
      (∃ e, env.extract_topics (_normalize_text (some raw)) = Except.error e) := by
    cases hsent : env.analyze_sentiment (_normalize_text (some raw)) with
    | error e => exact Or.inl ⟨e, rfl⟩
    | ok s =>
      cases hbias : env.classify_political_bias (_normalize_text (some raw)) with
      | error e => exact Or.inr (Or.inl ⟨e, rfl⟩)
      | ok b =>
        cases htop : env.extract_topics (_normalize_text (some raw)) with
        | error e => exact Or.inr (Or.inr ⟨e, rfl⟩)
        | ok k =>
          rw [hsent, hbias, htop] at hfail
          simp [isExcErr] at hfail
  rcases process_resolved env req raw hres with hp | ⟨url, hp⟩ <;>
    obtain ⟨⟨e, he⟩, hsnd⟩ := runPipeline_fail env raw _ hlen hfail2 <;>
    rw [hp] <;>
    refine ⟨by rw [he]; rfl, by rw [hsnd]; simp [List.countP_cons, isFetchEv]⟩

set_option maxRecDepth 40000 in
/-- C4 counterexample: with a failing topic extractor on a 200-character
text, the handler does not return any error-message dictionary (as the
claim states); the exception propagates out of the handler, and the fetch
is never attempted. -/
theorem claim_C4_counterexample :
    (process_article envTopicFail reqLong).fst = Except.error "topic model crashed" ∧
      isErrorResp (process_article envTopicFail reqLong).fst = false ∧
      (process_article envTopicFail reqLong).snd.countP isFetchEv = 0 := by
  refine ⟨by decide, by decide, by decide⟩

/-- C10: when the url path scrapes successfully but the article body is
empty or all whitespace, the request still succeeds: the stripped body is
empty, its normalized length 0 is under the threshold, and the short-text
fallback response is returned with sentiment computed on the empty
string. -/
theorem claim_C10 (env : Env) (req : ArticleRequest) (t : Option String) (s : String)
    (h1 : hasText req = false) (h2 : hasUrl req = true)
    (hs : env.scrape_raw (pyStrip (req.url.getD "")) = Except.ok t)
    (hws : (t.getD "").data.all Char.isWhitespace = true)
    (hsent : env.analyze_sentiment "" = Except.ok s) :
    (process_article env req).fst =
      Except.ok (Resp.success ["news", "world", "article"] s "center" [] (some shortNote)) := by
  have hws2 : ∀ c ∈ (t.getD "").data, c.isWhitespace = true := by
    simpa [List.all_eq_true] using hws
  have hstrip : pyStrip (t.getD "") = "" := pyStrip_all_ws _ hws2
  have hsw : _scrape_with_newspaper env (pyStrip (req.url.getD "")) = Except.ok "" := by
    unfold _scrape_with_newspaper
    rw [hs]
    dsimp only
    rw [hstrip]
  simp only [process_article]
  rw [if_neg (by simp [h1]), if_pos h2, hsw]
  dsimp only
  rw [runPipeline_short env "" _ s (by decide) hsent]

end NewsAnalyzer

namespace NewsAnalyzer

/-- Witness for C1 at a concrete short-text request. -/
theorem claim_C1_witness :
    resolveRaw envOk reqShort = some "hello world" ∧
      (_normalize_text (some "hello world")).length < 200 ∧
      envOk.analyze_sentiment (_normalize_text (some "hello world")) =
        Except.ok "S:hello world" ∧
      ((process_article envOk reqShort).fst =
        Except.ok (Resp.success ["news", "world", "article"] "S:hello world" "center" []
          (some shortNote)) ∧
        shortNote ≠ "") :=
  ⟨by decide, by decide, by decide,
    claim_C1 envOk reqShort "hello world" "S:hello world" (by decide) (by decide) (by decide)⟩

end NewsAnalyzer

namespace NewsAnalyzer

set_option maxRecDepth 40000 in
/-- Witness for C2 at a concrete 200-character request with all
collaborators succeeding. -/
theorem claim_C2_witness :
    resolveRaw envOk reqLong = some longText ∧
      200 ≤ (_normalize_text (some longText)).length ∧
      envOk.analyze_sentiment (_normalize_text (some longText)) =
        Except.ok (String.append "S:" longText) ∧
      envOk.classify_political_bias (_normalize_text (some longText)) = Except.ok "left" ∧
      envOk.extract_topics (_normalize_text (some longText)) = Except.ok ["k1", "k2"] ∧
      envOk.fetch_articles ["k1", "k2"] =
        Except.ok ["a1", "a2", "a3", "a4", "a5", "a6", "a7", "a8", "a9"] ∧
      ((process_article envOk reqLong).fst =
        Except.ok (Resp.success ["k1", "k2"] (String.append "S:" longText) "left"
          (["a1", "a2", "a3", "a4", "a5", "a6", "a7", "a8", "a9"].take 7) none) ∧
        (process_article envOk reqLong).snd.count
          (CallEvent.sentiment (_normalize_text (some longText))) = 1 ∧
        (process_article envOk reqLong).snd.count
          (CallEvent.bias (_normalize_text (some longText))) = 1 ∧
        (process_article envOk reqLong).snd.count
          (CallEvent.topics (_normalize_text (some longText))) = 1) :=
  ⟨by decide, by decide, by decide, by decide, by decide, by decide,
    claim_C2 envOk reqLong longText (String.append "S:" longText) "left" ["k1", "k2"]
      ["a1", "a2", "a3", "a4", "a5", "a6", "a7", "a8", "a9"]
      (by decide) (by decide) (by decide) (by decide) (by decide) (by decide)⟩

set_option maxRecDepth 40000 in
/-- Witness for C3: the fetcher returns nine candidates, the response keeps
seven. -/
theorem claim_C3_witness :
    (process_article envOk reqLong).fst =
      Except.ok (Resp.success ["k1", "k2"] (String.append "S:" longText) "left"
        ["a1", "a2", "a3", "a4", "a5", "a6", "a7"] none) ∧
      (["a1", "a2", "a3", "a4", "a5", "a6", "a7"] : List String).length ≤ 7 :=
  ⟨by decide,
    claim_C3 envOk reqLong ["k1", "k2"] (String.append "S:" longText) "left"
      ["a1", "a2", "a3", "a4", "a5", "a6", "a7"] none (by decide)⟩

set_option maxRecDepth 40000 in
/-- Witness for the amended C4 at a concrete failing topic extractor. -/
theorem claim_C4_witness :
    resolveRaw envTopicFail reqLong = some longText ∧
      200 ≤ (_normalize_text (some longText)).length ∧
      (isExcErr (envTopicFail.analyze_sentiment (_normalize_text (some longText))) ||
        isExcErr (envTopicFail.classify_political_bias (_normalize_text (some longText))) ||
        isExcErr (envTopicFail.extract_topics (_normalize_text (some longText)))) = true ∧
      (isExcErr (process_article envTopicFail reqLong).fst = true ∧
        (process_article envTopicFail reqLong).snd.countP isFetchEv = 0) :=
  ⟨by decide, by decide, by decide,
    claim_C4 envTopicFail reqLong longText (by decide) (by decide) (by decide)⟩

/-- Witness for C5: inline text next to a URL; the URL is ignored. -/
theorem claim_C5_witness :
    hasText ⟨some "hello world", some "http://ignored"⟩ = true ∧
      (process_article envOk ⟨some "hello world", some "http://ignored"⟩ =
        process_article envOk ⟨some "hello world", none⟩ ∧
        (process_article envOk
          ⟨some "hello world", some "http://ignored"⟩).snd.countP isScrapeEv = 0) :=
  ⟨by decide, claim_C5 envOk "hello world" (some "http://ignored") (by decide)⟩

/-- Witness for C6: blank text and empty url. -/
theorem claim_C6_witness :
    hasText reqBlank = false ∧ hasUrl reqBlank = false ∧
      process_article envOk reqBlank =
        (Except.ok (Resp.error "Please provide either text or a valid URL."), []) :=
  ⟨by decide, by decide, claim_C6 envOk reqBlank (by decide) (by decide)⟩

/-- Witness for C7: a url-only request whose scrape raises. -/
theorem claim_C7_witness :
    hasText reqUrlOnly = false ∧ hasUrl reqUrlOnly = true ∧
      envScrapeFail.scrape_raw (pyStrip (reqUrlOnly.url.getD "")) =
        Except.error "dead link" ∧
      (process_article envScrapeFail reqUrlOnly =
        (Except.ok (Resp.error ("Failed to extract article from URL: " ++ "dead link")),
          [CallEvent.scrape (pyStrip (reqUrlOnly.url.getD ""))]) ∧
        (process_article envScrapeFail reqUrlOnly).snd.countP isScrapeEv = 1 ∧
        (process_article envScrapeFail reqUrlOnly).snd.countP isAnalysisEv = 0) :=
  ⟨by decide, by decide, by decide,
    claim_C7 envScrapeFail reqUrlOnly "dead link" (by decide) (by decide) (by decide)⟩

/-- Witness for C10: a url-only request whose scrape returns a
whitespace-only body. -/
theorem claim_C10_witness :
    hasText reqUrlOnly = false ∧ hasUrl reqUrlOnly = true ∧
      envOk.scrape_raw (pyStrip (reqUrlOnly.url.getD "")) = Except.ok (some "  \t ") ∧
      ((some "  \t " : Option String).getD "").data.all Char.isWhitespace = true ∧
      envOk.analyze_sentiment "" = Except.ok "S:" ∧
      (process_article envOk reqUrlOnly).fst =
        Except.ok (Resp.success ["news", "world", "article"] "S:" "center" [] (some shortNote)) :=
  ⟨by decide, by decide, by decide, by decide, by decide,
    claim_C10 envOk reqUrlOnly (some "  \t ") "S:"
      (by decide) (by decide) (by decide) (by decide) (by decide)⟩

end NewsAnalyzer
